import Mathlib

/-!
Shallow embedding of `src/app.py` (text-to-powerpoint generator):
the outline requester `get_slide_structure_from_llm`, the deck builder
`create_presentation`, and the Streamlit button handler, together with
proofs of the specified properties.

Python strings are modelled as `List Char`; Python/JSON values as `PyVal`;
the external LLM call and `json.loads` as oracle parameters; the pptx
object model (layouts, slides, placeholders, text frames) as explicit
structures mirroring the attributes the code uses.
-/

namespace App

/-! ### Python string primitives used by the source -/

/-- Characters removed by Python's `str.strip()` with no argument. -/
def isPySpace (c : Char) : Bool :=
  c == ' ' || c == '\t' || c == '\n' || c == '\r' || c == '\x0b' || c == '\x0c'

/-- Python `raw.strip()`: remove leading and trailing whitespace. -/
def pyStrip (s : List Char) : List Char :=
  ((s.dropWhile isPySpace).reverse.dropWhile isPySpace).reverse

/-- Python `s.startswith(pre)`. -/
def startsWith (pre s : List Char) : Bool := decide (pre <+: s)

/-- The 7-character marker tested by `raw_content.strip().startswith("```json")`. -/
def fenceMark : List Char := "```json".toList

/-- A bare 3-character fence `"```"` (also the closing fence). -/
def tickFence : List Char := "```".toList

/-- The 4-character language tag, so `fenceMark = tickFence ++ jsonTag`. -/
def jsonTag : List Char := "json".toList

/-- Python slice `s[7:-3]` (for non-negative length): characters at
indices `7 .. len-4`, empty when the range is empty. -/
def pySlice7m3 (s : List Char) : List Char :=
  (s.take (s.length - 3)).drop 7

/-- Lines 42-43 of `app.py`: the fence-unwrapping heuristic.
`if raw_content.strip().startswith("```json"): raw_content = raw_content.strip()[7:-3]`
— otherwise `raw_content` is left unchanged. -/
def unwrapReply (raw : List Char) : List Char :=
  if startsWith fenceMark (pyStrip raw) then pySlice7m3 (pyStrip raw) else raw

/-! ### The Python/JSON value model -/

/-- Values that `json.loads` can return (floats omitted; none of the
analysed code paths involves numbers). -/
inductive PyVal where
  | pyStr (s : List Char)
  | pyList (xs : List PyVal)
  | pyDict (kvs : List (List Char × PyVal))
  | pyBool (b : Bool)
  | pyInt (n : Int)
  | pyNone

/-- Python truthiness of a value (used by `if structured_slides:`). -/
def pyTruthy : PyVal → Bool
  | .pyStr s => !s.isEmpty
  | .pyList xs => !xs.isEmpty
  | .pyDict kvs => !kvs.isEmpty
  | .pyBool b => b
  | .pyInt n => n != 0
  | .pyNone => false

/-- `d.get(key, default)` on a dict: the bound value, or the default. -/
def dictGet (kvs : List (List Char × PyVal)) (key : List Char) (default : PyVal) : PyVal :=
  match kvs.find? (fun kv => kv.1 == key) with
  | some kv => kv.2
  | none => default

/-- Coerce to a Python `str`; assigning anything else to a pptx text
attribute raises `TypeError`. -/
def expectStr : PyVal → Except (List Char) (List Char)
  | .pyStr s => .ok s
  | _ => .error "TypeError: text must be a string".toList

/-! ### The pptx object model (the attributes `app.py` touches) -/

/-- One paragraph of a text frame: its text and its indent `level`. -/
structure Paragraph where
  text : List Char
  level : Nat

/-- A placeholder shape: its `placeholder_format.idx` and its text frame,
as a list of paragraphs. -/
structure Placeholder where
  idx : Nat
  tf : List Paragraph

/-- A slide layout: its display `name` and the placeholders a slide
instantiated from it inherits (in document order). -/
structure Layout where
  name : List Char
  placeholders : List Placeholder

/-- A slide: the name of the layout it was added from and its
placeholders in document order. -/
structure Slide where
  layoutName : List Char
  placeholders : List Placeholder

/-- An opened presentation: its slide layouts and its slides, in order. -/
structure Prs where
  slideLayouts : List Layout
  slides : List Slide

/-- `slide.shapes.title`: the placeholder with `idx = 0`, if any. -/
def titleOf (s : Slide) : Option Placeholder :=
  s.placeholders.find? (fun p => p.idx == 0)

/-- The body target of lines 85-89: the first placeholder with
`placeholder_format.idx >= 1`, if any. -/
def bodyOf (s : Slide) : Option Placeholder :=
  s.placeholders.find? (fun p => decide (1 ≤ p.idx))

/-! ### Deck builder: `create_presentation` (lines 53-111) -/

/-- `"Title" in layout.name and "Content" in layout.name` (line 68). -/
def layoutPred (l : Layout) : Bool :=
  decide ("Title".toList <:+: l.name) && decide ("Content".toList <:+: l.name)

/-- Lines 65-74: scan `prs.slide_layouts` for the first layout whose name
contains both "Title" and "Content"; otherwise fall back to
`prs.slide_layouts[1]`, which raises `IndexError` when there are fewer
than two layouts. -/
def selectLayout (prs : Prs) : Except (List Char) Layout :=
  match prs.slideLayouts.find? layoutPred with
  | some l => .ok l
  | none =>
    match prs.slideLayouts.get? 1 with
    | some l => .ok l
    | none => .error "IndexError: list index out of range".toList

/-- The `for point in content_points[1:]` loop of lines 98-101: one
level-1 paragraph per remaining element; a non-string element raises. -/
def bulletParas : List PyVal → Except (List Char) (List Paragraph)
  | [] => .ok []
  | v :: vs =>
    match expectStr v with
    | .error e => .error e
    | .ok t =>
      match bulletParas vs with
      | .error e => .error e
      | .ok rest => .ok (⟨t, 1⟩ :: rest)

/-- Lines 92-101 on the body text frame: `tf.clear()` leaves one empty
paragraph; a non-empty list writes its head as `tf.text` and each later
element as an added paragraph at level 1; an empty or non-list `content`
leaves the frame cleared. -/
def populateBody (content : PyVal) : Except (List Char) (List Paragraph) :=
  match content with
  | .pyList (v :: vs) =>
    match expectStr v with
    | .error e => .error e
    | .ok t =>
      match bulletParas vs with
      | .error e => .error e
      | .ok rest => .ok (⟨t, 0⟩ :: rest)
  | _ => .ok [⟨[], 0⟩]

/-- Lines 81-82: `if slide.shapes.title: slide.shapes.title.text = ...` —
set the text of the first `idx = 0` placeholder, if one exists. -/
def applyTitle (titleVal : PyVal) : List Placeholder → Except (List Char) (List Placeholder)
  | [] => .ok []
  | p :: rest =>
    if p.idx = 0 then
      match expectStr titleVal with
      | .error e => .error e
      | .ok t => .ok ({ p with tf := [⟨t, 0⟩] } :: rest)
    else
      match applyTitle titleVal rest with
      | .error e => .error e
      | .ok rest' => .ok (p :: rest')

/-- Lines 85-101: find the first placeholder with `idx >= 1` and replace
its text frame with the populated body; when none exists the slide is
left as is. -/
def applyBody (content : PyVal) : List Placeholder → Except (List Char) (List Placeholder)
  | [] => .ok []
  | p :: rest =>
    if 1 ≤ p.idx then
      match populateBody content with
      | .error e => .error e
      | .ok tf => .ok ({ p with tf := tf } :: rest)
    else
      match applyBody content rest with
      | .error e => .error e
      | .ok rest' => .ok (p :: rest')

/-- Lines 77-101, one iteration: `prs.slides.add_slide(layout)` clones the
layout's placeholders, then the title and body are written from
`slide_data.get("title", "")` and `slide_data.get("content", [])`.
A non-dict record raises `AttributeError` at `.get`. -/
def processRecord (layout : Layout) (record : PyVal) : Except (List Char) Slide :=
  match record with
  | .pyDict kvs =>
    match applyTitle (dictGet kvs "title".toList (.pyStr [])) layout.placeholders with
    | .error e => .error e
    | .ok phs1 =>
      match applyBody (dictGet kvs "content".toList (.pyList [])) phs1 with
      | .error e => .error e
      | .ok phs2 => .ok ⟨layout.name, phs2⟩
  | _ => .error "AttributeError: no attribute get".toList

/-- The `for slide_data in structured_slides` loop, one slide per record
in order; the first raising record aborts the whole call. -/
def processAll (layout : Layout) : List PyVal → Except (List Char) (List Slide)
  | [] => .ok []
  | r :: rs =>
    match processRecord layout r with
    | .error e => .error e
    | .ok s =>
      match processAll layout rs with
      | .error e => .error e
      | .ok ss => .ok (s :: ss)

/-- The body of the `try` in `create_presentation`: open the template
(which can itself fail on a corrupt file), select a layout, append one
slide per record, and serialize. Iterating a non-list outline raises once
a non-dict element reaches `.get`, so it is modelled as an error. -/
def deckBody (structured_slides : PyVal) (template_file : Except (List Char) Prs) :
    Except (List Char) Prs :=
  match template_file with
  | .error e => .error e
  | .ok prs =>
    match selectLayout prs with
    | .error e => .error e
    | .ok layout =>
      match structured_slides with
      | .pyList rs =>
        match processAll layout rs with
        | .error e => .error e
        | .ok ns => .ok { prs with slides := prs.slides ++ ns }
      | _ => .error "TypeError: object is not a list of dicts".toList

/-- Line 110's message. -/
def deckErrorMsg (e : List Char) : List Char :=
  "Error during presentation creation: ".toList ++ e ++ ". Please check your template file.".toList

/-- Lines 53-111: the whole function. Any exception in the body is caught,
shown with `st.error`, and `None` is returned; on success the saved
buffer (modelled by the final presentation) is returned with no message. -/
def create_presentation (structured_slides : PyVal) (template_file : Except (List Char) Prs) :
    Option Prs × List (List Char) :=
  match deckBody structured_slides template_file with
  | .ok prs => (some prs, [])
  | .error e => (none, [deckErrorMsg e])

/-! ### Outline requester: `get_slide_structure_from_llm` (lines 9-51) -/

/-- The two external effects inside the `try` of
`get_slide_structure_from_llm`: the chat-completion call (lines 31-40,
yielding `response.choices[0].message.content` or raising), and
`json.loads` (line 45, yielding a value or raising). Both are outside
this repository and are taken as oracle parameters. -/
structure LlmOracle where
  reply : Except (List Char) (List Char)
  parse : List Char → Except (List Char) PyVal

/-- The body of the `try` in `get_slide_structure_from_llm`: obtain the
raw reply, unwrap a ```json fence per lines 42-43, and parse. -/
def llmBody (o : LlmOracle) : Except (List Char) PyVal :=
  match o.reply with
  | .error e => .error e
  | .ok raw => o.parse (unwrapReply raw)

/-- Line 50's message. -/
def llmErrorMsg (e : List Char) : List Char :=
  "Error calling LLM: ".toList ++ e ++ ". Check your API key and the input text.".toList

/-- Lines 9-51: any exception in the body is caught, shown with
`st.error`, and `None` is returned; on success the parsed value is
returned with no message. -/
def get_slide_structure_from_llm (o : LlmOracle) : Option PyVal × List (List Char) :=
  match llmBody o with
  | .ok v => (some v, [])
  | .error e => (none, [llmErrorMsg e])

/-! ### Interactive shell: the `if generate_button:` block (lines 146-173) -/

/-- The form state when the button is clicked: `st.text_area` and
`st.text_input` default to the empty string; the file uploader yields
`None` or an uploaded file, modelled by what opening it as a
`Presentation` would produce. -/
structure ShellInput where
  input_text : List Char
  guidance_text : List Char
  api_key : List Char
  uploaded_template : Option (Except (List Char) Prs)

/-- Observable outcome of one click of the generate button. -/
structure RunTrace where
  warning : Option (List Char)
  llmCalled : Bool
  llmErrors : List (List Char)
  deckBuilt : Bool
  deckErrors : List (List Char)
  successShown : Bool
  download : Option Prs

/-- Lines 146-173: validate text, key and template (warn and stop on the
first missing one), then run the outline requester; only a truthy
outline reaches `create_presentation`, and only a non-`None` buffer
reaches the success message and download button. -/
def onGenerate (inp : ShellInput) (o : LlmOracle) : RunTrace :=
  if inp.input_text.isEmpty then
    ⟨some "Please paste some text to begin.".toList, false, [], false, [], false, none⟩
  else if inp.api_key.isEmpty then
    ⟨some "Please enter your OpenAI API key.".toList, false, [], false, [], false, none⟩
  else
    match inp.uploaded_template with
    | none =>
      ⟨some "Please upload a PowerPoint template.".toList, false, [], false, [], false, none⟩
    | some tmpl =>
      match get_slide_structure_from_llm o with
      | (some v, errs1) =>
        if pyTruthy v then
          match create_presentation v tmpl with
          | (some prs, errs2) => ⟨none, true, errs1, true, errs2, true, some prs⟩
          | (none, errs2) => ⟨none, true, errs1, true, errs2, false, none⟩
        else ⟨none, true, errs1, false, [], false, none⟩
      | (none, errs1) => ⟨none, true, errs1, false, [], false, none⟩

/-- `isinstance(content_points, list) and content_points` (line 96):
true exactly for a non-empty list. -/
def isNonemptyList : PyVal → Bool
  | .pyList (_ :: _) => true
  | _ => false

/-! ## Theorems -/

/-! ### String-level facts about the fence heuristic -/

lemma len_dropWhile_le (p : α → Bool) (l : List α) : (l.dropWhile p).length ≤ l.length := by
  induction l with
  | nil => simp
  | cons a t ih =>
    rw [List.dropWhile_cons]
    split
    · simp only [List.length_cons]; omega
    · exact Nat.le_refl _

lemma dropWhile_append_of_head (p : α → Bool) {l₁ : List α} (h : l₁.dropWhile p = l₁)
    (hne : l₁ ≠ []) (l₂ : List α) : (l₁ ++ l₂).dropWhile p = l₁ ++ l₂ := by
  cases l₁ with
  | nil => exact absurd rfl hne
  | cons a t =>
    rw [List.dropWhile_cons] at h
    by_cases hpa : p a = true
    · rw [if_pos hpa] at h
      have h2 := congrArg List.length h
      have h3 := len_dropWhile_le p t
      simp only [List.length_cons] at h2
      omega
    · rw [List.cons_append, List.dropWhile_cons, if_neg hpa]

lemma pyStrip_eq_self {l : List Char} (h1 : l.dropWhile isPySpace = l)
    (h2 : l.reverse.dropWhile isPySpace = l.reverse) : pyStrip l = l := by
  unfold pyStrip
  rw [h1, h2, List.reverse_reverse]

lemma pyStrip_wrapped (pre mid suf : List Char) (hpre : pre.dropWhile isPySpace = pre)
    (hpre' : pre ≠ []) (hsuf : suf.reverse.dropWhile isPySpace = suf.reverse)
    (hsuf' : suf ≠ []) : pyStrip (pre ++ mid ++ suf) = pre ++ mid ++ suf := by
  apply pyStrip_eq_self
  · rw [List.append_assoc]
    exact dropWhile_append_of_head _ hpre hpre' _
  · rw [List.reverse_append]
    exact dropWhile_append_of_head _ hsuf (by simpa using hsuf') _

lemma unwrap_pos {raw : List Char} (h : startsWith fenceMark (pyStrip raw) = true) :
    unwrapReply raw = pySlice7m3 (pyStrip raw) := by
  simp [unwrapReply, h]

lemma unwrap_neg {raw : List Char} (h : startsWith fenceMark (pyStrip raw) = false) :
    unwrapReply raw = raw := by
  simp [unwrapReply, h]

lemma strip_fenced (mid : List Char) :
    pyStrip (fenceMark ++ mid ++ tickFence) = fenceMark ++ mid ++ tickFence :=
  pyStrip_wrapped _ _ _ (by decide) (by decide) (by decide) (by decide)

lemma slice_fenced (mid : List Char) : pySlice7m3 (fenceMark ++ mid ++ tickFence) = mid := by
  unfold pySlice7m3
  have h7 : fenceMark.length = 7 := by decide
  have hl : (fenceMark ++ mid ++ tickFence).length - 3 = (fenceMark ++ mid).length := by
    have h3 : tickFence.length = 3 := by decide
    simp only [List.length_append, h7, h3]
    omega
  rw [hl, List.take_left' rfl]
  exact List.drop_left' h7

lemma startsWith_of_append (pre rest : List Char) : startsWith pre (pre ++ rest) = true := by
  unfold startsWith
  exact decide_eq_true ⟨rest, rfl⟩

lemma unwrap_fenced (mid : List Char) : unwrapReply (fenceMark ++ mid ++ tickFence) = mid := by
  have hp : startsWith fenceMark (pyStrip (fenceMark ++ mid ++ tickFence)) = true := by
    rw [strip_fenced, List.append_assoc]
    exact startsWith_of_append _ _
  rw [unwrap_pos hp, strip_fenced, slice_fenced]

lemma startsWith_append_cancel (l l₁ l₂ : List Char) :
    startsWith (l ++ l₁) (l ++ l₂) = startsWith l₁ l₂ := by
  unfold startsWith
  rw [Bool.eq_iff_iff, decide_eq_true_iff, decide_eq_true_iff]
  constructor
  · rintro ⟨t, ht⟩
    rw [List.append_assoc] at ht
    exact ⟨t, List.append_cancel_left ht⟩
  · rintro ⟨t, ht⟩
    exact ⟨t, by rw [List.append_assoc, ht]⟩

lemma plain_fence_unchanged (body : List Char)
    (h : startsWith jsonTag (body ++ tickFence) = false) :
    unwrapReply (tickFence ++ body ++ tickFence) = tickFence ++ body ++ tickFence := by
  apply unwrap_neg
  have hs : pyStrip (tickFence ++ body ++ tickFence) = tickFence ++ body ++ tickFence :=
    pyStrip_wrapped _ _ _ (by decide) (by decide) (by decide) (by decide)
  rw [hs]
  have hfm : fenceMark = tickFence ++ jsonTag := by decide
  rw [List.append_assoc, hfm, startsWith_append_cancel]
  exact h

/-- C2: a reply fenced exactly as ```json ... ``` has the first 7 and last
3 characters stripped before parsing (yielding the fenced body), and a
reply with no leading ```json fence reaches the JSON parser unchanged. -/
theorem claim_C2 :
    (∀ body : List Char, unwrapReply (fenceMark ++ body ++ tickFence) = body) ∧
    (∀ raw : List Char, startsWith fenceMark (pyStrip raw) = false → unwrapReply raw = raw) :=
  ⟨unwrap_fenced, fun _ h => unwrap_neg h⟩

theorem claim_C2_witness :
    unwrapReply (fenceMark ++ "[1, 2]".toList ++ tickFence) = "[1, 2]".toList ∧
    unwrapReply "[1, 2]".toList = "[1, 2]".toList :=
  ⟨claim_C2.1 _, claim_C2.2 _ (by decide)⟩

/-- C9: fence unwrapping is decided solely by whether the stripped reply
starts with the 7 characters ```json — when it does, the slice removing
the first 7 and last 3 characters is applied unconditionally, with no
check that a closing fence exists; when it does not (in particular for a
plain ``` fence whose body does not start with "json"), the reply is left
unchanged. -/
theorem claim_C9 :
    (∀ raw : List Char, startsWith fenceMark (pyStrip raw) = true →
      unwrapReply raw = pySlice7m3 (pyStrip raw)) ∧
    (∀ raw : List Char, startsWith fenceMark (pyStrip raw) = false → unwrapReply raw = raw) ∧
    (∀ body : List Char, startsWith jsonTag (body ++ tickFence) = false →
      unwrapReply (tickFence ++ body ++ tickFence) = tickFence ++ body ++ tickFence) :=
  ⟨fun _ h => unwrap_pos h, fun _ h => unwrap_neg h, plain_fence_unchanged⟩

theorem claim_C9_witness :
    unwrapReply " ```json[1, 2]".toList = pySlice7m3 (pyStrip " ```json[1, 2]".toList) ∧
    unwrapReply "[1, 2]".toList = "[1, 2]".toList ∧
    unwrapReply (tickFence ++ "\n[1]\n".toList ++ tickFence) =
      tickFence ++ "\n[1]\n".toList ++ tickFence :=
  ⟨claim_C9.1 _ (by decide), claim_C9.2.1 _ (by decide), claim_C9.2.2 _ (by decide)⟩

/-! ### C1: one slide per record, appended in order -/

lemma processAll_ok_forall₂ {L : Layout} : ∀ {rs : List PyVal} {ns : List Slide},
    processAll L rs = .ok ns →
    List.Forall₂ (fun r s => processRecord L r = .ok s) rs ns := by
  intro rs
  induction rs with
  | nil =>
    intro ns h
    simp only [processAll] at h
    cases h
    exact List.Forall₂.nil
  | cons r rs ih =>
    intro ns h
    simp only [processAll] at h
    cases hr : processRecord L r with
    | error e => rw [hr] at h; simp at h
    | ok s =>
      rw [hr] at h
      cases hall : processAll L rs with
      | error e => rw [hall] at h; simp at h
      | ok ss =>
        rw [hall] at h
        cases h
        exact List.Forall₂.cons hr (ih hall)

/-- C1: whenever `create_presentation` succeeds on an outline of N
records, the produced presentation consists of the template's slides
followed by exactly N new slides, the i-th generated from the i-th
record; nothing else is added, removed or reordered. -/
theorem claim_C1 (t : Prs) (rs : List PyVal) (p : Prs)
    (h : (create_presentation (.pyList rs) (.ok t)).1 = some p) :
    ∃ L ns, selectLayout t = .ok L ∧
      p.slideLayouts = t.slideLayouts ∧
      p.slides = t.slides ++ ns ∧
      ns.length = rs.length ∧
      List.Forall₂ (fun r s => processRecord L r = .ok s) rs ns := by
  unfold create_presentation at h
  cases hd : deckBody (.pyList rs) (.ok t) with
  | error e => rw [hd] at h; simp at h
  | ok q =>
    rw [hd] at h
    simp only at h
    cases h
    unfold deckBody at hd
    simp only at hd
    cases hsl : selectLayout t with
    | error e => rw [hsl] at hd; simp at hd
    | ok L =>
      rw [hsl] at hd
      simp only at hd
      cases hpa : processAll L rs with
      | error e => rw [hpa] at hd; simp at hd
      | ok ns =>
        rw [hpa] at hd
        cases hd
        have hfa := processAll_ok_forall₂ hpa
        exact ⟨L, ns, rfl, rfl, rfl, hfa.length_eq.symm, hfa⟩

theorem claim_C1_witness :
    ∃ L ns, selectLayout ⟨[⟨"Title and Content".toList, [⟨0, []⟩, ⟨1, []⟩]⟩], []⟩ = .ok L ∧
      (⟨[⟨"Title and Content".toList, [⟨0, []⟩, ⟨1, []⟩]⟩],
        [⟨"Title and Content".toList,
          [⟨0, [⟨"T".toList, 0⟩]⟩, ⟨1, [⟨"A".toList, 0⟩, ⟨"B".toList, 1⟩]⟩]⟩]⟩ : Prs).slideLayouts =
        [⟨"Title and Content".toList, [⟨0, []⟩, ⟨1, []⟩]⟩] ∧
      (⟨[⟨"Title and Content".toList, [⟨0, []⟩, ⟨1, []⟩]⟩],
        [⟨"Title and Content".toList,
          [⟨0, [⟨"T".toList, 0⟩]⟩, ⟨1, [⟨"A".toList, 0⟩, ⟨"B".toList, 1⟩]⟩]⟩]⟩ : Prs).slides =
        [] ++ ns ∧
      ns.length = [PyVal.pyDict [("title".toList, .pyStr "T".toList),
        ("content".toList, .pyList [.pyStr "A".toList, .pyStr "B".toList])]].length ∧
      List.Forall₂ (fun r s => processRecord L r = .ok s)
        [PyVal.pyDict [("title".toList, .pyStr "T".toList),
          ("content".toList, .pyList [.pyStr "A".toList, .pyStr "B".toList])]] ns :=
  claim_C1 _ _ _ rfl

/-! ### C3: layout selection -/

lemma find?_of_first {α : Type} {p : α → Bool} : ∀ (l : List α) (i : Nat) (a : α),
    l.get? i = some a → p a = true →
    (∀ j, j < i → ∀ b, l.get? j = some b → p b = false) →
    l.find? p = some a := by
  intro l
  induction l with
  | nil => intro i a h; simp at h
  | cons x xs ih =>
    intro i a h hpa hmin
    cases i with
    | zero =>
      simp only [List.get?_cons_zero, Option.some.injEq] at h
      subst h
      simp [List.find?_cons, hpa]
    | succ n =>
      have h0 : p x = false := hmin 0 (Nat.succ_pos n) x rfl
      rw [List.find?_cons, h0]
      simp only
      apply ih n a
      · simpa using h
      · exact hpa
      · intro j hj b hb
        exact hmin (j + 1) (Nat.succ_lt_succ hj) b (by simpa using hb)

/-- C3: the deck builder scans the template's layouts in order and picks
the first whose name contains both "Title" and "Content"; when no layout
name contains both, the layout at index 1 is picked. -/
theorem claim_C3 (t : Prs) :
    (∀ i L, t.slideLayouts.get? i = some L → layoutPred L = true →
      (∀ j, j < i → ∀ M, t.slideLayouts.get? j = some M → layoutPred M = false) →
      selectLayout t = .ok L) ∧
    ((∀ L ∈ t.slideLayouts, layoutPred L = false) →
      ∀ L1, t.slideLayouts.get? 1 = some L1 → selectLayout t = .ok L1) := by
  constructor
  · intro i L hget hp hmin
    have hfind := find?_of_first t.slideLayouts i L hget hp hmin
    simp [selectLayout, hfind]
  · intro hnone L1 h1
    have hfind : t.slideLayouts.find? layoutPred = none := by
      rw [List.find?_eq_none]
      intro x hx
      simp [hnone x hx]
    rw [List.get?_eq_getElem?] at h1
    simp [selectLayout, hfind, h1]

theorem claim_C3_witness :
    selectLayout ⟨[⟨"Title and Content".toList, []⟩, ⟨"Blank".toList, []⟩], []⟩ =
      .ok ⟨"Title and Content".toList, []⟩ ∧
    selectLayout ⟨[⟨"Cover".toList, []⟩, ⟨"Blank".toList, []⟩], []⟩ =
      .ok ⟨"Blank".toList, []⟩ :=
  ⟨(claim_C3 _).1 0 _ rfl (by decide) (fun j hj => absurd hj (by omega)),
   (claim_C3 _).2 (by decide) _ rfl⟩

/-! ### C4, C5, C10: title and body population -/

lemma applyTitle_str (t : List Char) : ∀ (phs : List Placeholder),
    ∃ phs', applyTitle (.pyStr t) phs = .ok phs' ∧
      phs'.find? (fun p => decide (1 ≤ p.idx)) = phs.find? (fun p => decide (1 ≤ p.idx)) ∧
      (∀ q, phs.find? (fun p => p.idx == 0) = some q →
        phs'.find? (fun p => p.idx == 0) = some { q with tf := [⟨t, 0⟩] }) ∧
      (phs.find? (fun p => p.idx == 0) = none → phs' = phs) := by
  intro phs
  induction phs with
  | nil => exact ⟨[], rfl, rfl, by simp, fun _ => rfl⟩
  | cons p rest ih =>
    by_cases hp : p.idx = 0
    · have hbeq : (p.idx == 0) = true := by simp [hp]
      have hd : decide (1 ≤ p.idx) = false := by simp [hp]
      refine ⟨{ p with tf := [⟨t, 0⟩] } :: rest, ?_, ?_, ?_, ?_⟩
      · simp [applyTitle, hp, expectStr]
      · simp [List.find?_cons, hd]
      · intro q hq
        rw [List.find?_cons] at hq
        simp [hbeq] at hq
        subst hq
        simp [List.find?_cons, hbeq]
      · intro hnone
        rw [List.find?_cons] at hnone
        simp [hbeq] at hnone
    · obtain ⟨rest', hr, h1, h2, h3⟩ := ih
      have hbeq : (p.idx == 0) = false := by simp [hp]
      have hd : decide (1 ≤ p.idx) = true := decide_eq_true (Nat.one_le_iff_ne_zero.mpr hp)
      refine ⟨p :: rest', ?_, ?_, ?_, ?_⟩
      · simp [applyTitle, hp, hr]
      · simp [List.find?_cons, hd]
      · intro q hq
        rw [List.find?_cons] at hq
        simp [hbeq] at hq
        simp [List.find?_cons, hbeq]
        exact h2 q hq
      · intro hnone
        rw [List.find?_cons_of_neg _ (by simp [hp])] at hnone
        rw [h3 hnone]

lemma applyBody_upd (c : PyVal) : ∀ (phs : List Placeholder),
    (phs.find? (fun p => decide (1 ≤ p.idx)) = none → applyBody c phs = .ok phs) ∧
    (∀ q tfc, phs.find? (fun p => decide (1 ≤ p.idx)) = some q → populateBody c = .ok tfc →
      ∃ phs', applyBody c phs = .ok phs' ∧
        phs'.find? (fun p => decide (1 ≤ p.idx)) = some { q with tf := tfc } ∧
        phs'.find? (fun p => p.idx == 0) = phs.find? (fun p => p.idx == 0)) := by
  intro phs
  induction phs with
  | nil =>
    refine ⟨fun _ => rfl, ?_⟩
    intro q tfc hq
    simp at hq
  | cons p rest ih =>
    by_cases hp : 1 ≤ p.idx
    · have hd : decide (1 ≤ p.idx) = true := decide_eq_true hp
      have hbeq : (p.idx == 0) = false := by simp; omega
      constructor
      · intro h
        rw [List.find?_cons] at h
        simp [hd] at h
      · intro q tfc hq hpop
        rw [List.find?_cons] at hq
        simp [hd] at hq
        subst hq
        refine ⟨{ p with tf := tfc } :: rest, ?_, ?_, ?_⟩
        · simp [applyBody, hp, hpop]
        · simp [List.find?_cons, hd]
        · simp [List.find?_cons, hbeq]
    · have h0 : p.idx = 0 := by omega
      have hd : decide (1 ≤ p.idx) = false := by simp [h0]
      have hbeq : (p.idx == 0) = true := by simp [h0]
      constructor
      · intro h
        rw [List.find?_cons_of_neg _ (by simp [h0])] at h
        have hrest := ih.1 h
        simp [applyBody, hp, hrest]
      · intro q tfc hq hpop
        rw [List.find?_cons] at hq
        simp [hd] at hq
        obtain ⟨rest', hr, hf, ht⟩ := ih.2 q tfc hq hpop
        refine ⟨p :: rest', ?_, ?_, ?_⟩
        · simp [applyBody, hp, hr]
        · simp [List.find?_cons, hd]
          exact hf
        · simp [List.find?_cons, hbeq]

lemma populateBody_default {c : PyVal} (hc : isNonemptyList c = false) :
    populateBody c = .ok [⟨[], 0⟩] := by
  cases c with
  | pyList xs =>
    cases xs with
    | nil => rfl
    | cons x xs => simp [isNonemptyList] at hc
  | pyStr s => rfl
  | pyDict kvs => rfl
  | pyBool b => rfl
  | pyInt n => rfl
  | pyNone => rfl

/-- C4: a record whose content is `["A","B","C"]`, generated on a slide
having a body placeholder (first placeholder of index ≥ 1), yields that
placeholder holding "A" as primary text and "B", "C" as level-1
paragraphs, in that order. -/
theorem claim_C4 (layout : Layout) (kvs : List (List Char × PyVal)) (tv : List Char)
    (q : Placeholder)
    (htitle : dictGet kvs "title".toList (.pyStr []) = .pyStr tv)
    (hcontent : dictGet kvs "content".toList (.pyList []) =
      .pyList [.pyStr "A".toList, .pyStr "B".toList, .pyStr "C".toList])
    (hbody : layout.placeholders.find? (fun p => decide (1 ≤ p.idx)) = some q) :
    ∃ s, processRecord layout (.pyDict kvs) = .ok s ∧
      bodyOf s = some { q with tf :=
        [⟨"A".toList, 0⟩, ⟨"B".toList, 1⟩, ⟨"C".toList, 1⟩] } := by
  obtain ⟨phs1, hr1, hpre, -, -⟩ := applyTitle_str tv layout.placeholders
  have hfind1 : phs1.find? (fun p => decide (1 ≤ p.idx)) = some q := by rw [hpre, hbody]
  have hpop : populateBody (.pyList [.pyStr "A".toList, .pyStr "B".toList, .pyStr "C".toList]) =
      .ok [⟨"A".toList, 0⟩, ⟨"B".toList, 1⟩, ⟨"C".toList, 1⟩] := rfl
  obtain ⟨phs2, hr2, hfind2, -⟩ :=
    (applyBody_upd (.pyList [.pyStr "A".toList, .pyStr "B".toList, .pyStr "C".toList]) phs1).2
      q _ hfind1 hpop
  refine ⟨⟨layout.name, phs2⟩, ?_, ?_⟩
  · simp only [processRecord, htitle, hr1, hcontent, hr2]
  · simpa [bodyOf] using hfind2

theorem claim_C4_witness :
    ∃ s, processRecord ⟨"Title and Content".toList, [⟨0, []⟩, ⟨1, []⟩]⟩
        (.pyDict [("title".toList, .pyStr "T".toList),
          ("content".toList, .pyList [.pyStr "A".toList, .pyStr "B".toList, .pyStr "C".toList])]) =
      .ok s ∧
      bodyOf s = some ⟨1, [⟨"A".toList, 0⟩, ⟨"B".toList, 1⟩, ⟨"C".toList, 1⟩]⟩ :=
  claim_C4 _ _ "T".toList ⟨1, []⟩ rfl rfl rfl

/-- C5: a record whose content is the empty list, or not a list at all,
leaves the slide's body placeholder cleared: one empty paragraph, nothing
more. -/
theorem claim_C5 (layout : Layout) (kvs : List (List Char × PyVal)) (tv : List Char)
    (c : PyVal) (q : Placeholder)
    (htitle : dictGet kvs "title".toList (.pyStr []) = .pyStr tv)
    (hcontent : dictGet kvs "content".toList (.pyList []) = c)
    (hc : isNonemptyList c = false)
    (hbody : layout.placeholders.find? (fun p => decide (1 ≤ p.idx)) = some q) :
    ∃ s, processRecord layout (.pyDict kvs) = .ok s ∧
      bodyOf s = some { q with tf := [⟨[], 0⟩] } := by
  obtain ⟨phs1, hr1, hpre, -, -⟩ := applyTitle_str tv layout.placeholders
  have hfind1 : phs1.find? (fun p => decide (1 ≤ p.idx)) = some q := by rw [hpre, hbody]
  obtain ⟨phs2, hr2, hfind2, -⟩ :=
    (applyBody_upd c phs1).2 q _ hfind1 (populateBody_default hc)
  refine ⟨⟨layout.name, phs2⟩, ?_, ?_⟩
  · simp only [processRecord, htitle, hr1, hcontent, hr2]
  · simpa [bodyOf] using hfind2

theorem claim_C5_witness :
    (∃ s, processRecord ⟨"Title and Content".toList, [⟨0, []⟩, ⟨1, []⟩]⟩
        (.pyDict [("title".toList, .pyStr "T".toList), ("content".toList, .pyList [])]) =
      .ok s ∧ bodyOf s = some ⟨1, [⟨[], 0⟩]⟩) ∧
    (∃ s, processRecord ⟨"Title and Content".toList, [⟨0, []⟩, ⟨1, []⟩]⟩
        (.pyDict [("title".toList, .pyStr "T".toList),
          ("content".toList, .pyStr "not a list".toList)]) =
      .ok s ∧ bodyOf s = some ⟨1, [⟨[], 0⟩]⟩) :=
  ⟨claim_C5 _ _ "T".toList (.pyList []) ⟨1, []⟩ rfl rfl rfl rfl,
   claim_C5 _ _ "T".toList (.pyStr "not a list".toList) ⟨1, []⟩ rfl rfl rfl rfl⟩

/-- C10: the two omissions are handled independently by the `.get`
defaults. A dict record missing only "title" (whatever its content, as
long as that content itself populates without raising) still yields a
slide, with the title placeholder — when one exists — set to the empty
string; a dict record missing only "content" (whatever its title string)
still yields a slide, with the body placeholder — when one exists — left
cleared with no paragraphs. Neither omission raises or skips the slide. -/
theorem claim_C10 (layout : Layout) (kvs : List (List Char × PyVal)) :
    (∀ tfc, kvs.find? (fun kv => kv.1 == "title".toList) = none →
      populateBody (dictGet kvs "content".toList (.pyList [])) = .ok tfc →
      ∃ s, processRecord layout (.pyDict kvs) = .ok s ∧
        ∀ q, titleOf s = some q → q.tf = [⟨[], 0⟩]) ∧
    (∀ tv, kvs.find? (fun kv => kv.1 == "content".toList) = none →
      dictGet kvs "title".toList (.pyStr []) = .pyStr tv →
      ∃ s, processRecord layout (.pyDict kvs) = .ok s ∧
        ∀ q, bodyOf s = some q → q.tf = [⟨[], 0⟩]) := by
  constructor
  · intro tfc htitle hc
    have hdt : dictGet kvs "title".toList (.pyStr []) = .pyStr [] := by
      unfold dictGet
      rw [htitle]
    obtain ⟨phs1, hr1, hpre, htit, hnon⟩ := applyTitle_str [] layout.placeholders
    have htit1 : ∀ q, phs1.find? (fun p => p.idx == 0) = some q → q.tf = [⟨[], 0⟩] := by
      intro q hq
      cases h0 : layout.placeholders.find? (fun p => p.idx == 0) with
      | none => rw [hnon h0, h0] at hq; cases hq
      | some q0 =>
        rw [htit q0 h0] at hq
        cases hq
        rfl
    cases hb : phs1.find? (fun p => decide (1 ≤ p.idx)) with
    | none =>
      have hr2 := (applyBody_upd (dictGet kvs "content".toList (.pyList [])) phs1).1 hb
      refine ⟨⟨layout.name, phs1⟩, ?_, ?_⟩
      · simp only [processRecord, hdt, hr1, hr2]
      · intro q hq
        exact htit1 q (by simpa [titleOf] using hq)
    | some qb =>
      obtain ⟨phs2, hr2, hfind2, h0pre⟩ :=
        (applyBody_upd (dictGet kvs "content".toList (.pyList [])) phs1).2 qb tfc hb hc
      refine ⟨⟨layout.name, phs2⟩, ?_, ?_⟩
      · simp only [processRecord, hdt, hr1, hr2]
      · intro q hq
        simp only [titleOf] at hq
        rw [h0pre] at hq
        exact htit1 q hq
  · intro tv hcontent htv
    have hdc : dictGet kvs "content".toList (.pyList []) = .pyList [] := by
      unfold dictGet
      rw [hcontent]
    obtain ⟨phs1, hr1, hpre, -, -⟩ := applyTitle_str tv layout.placeholders
    cases hb : phs1.find? (fun p => decide (1 ≤ p.idx)) with
    | none =>
      have hr2 := (applyBody_upd (.pyList []) phs1).1 hb
      refine ⟨⟨layout.name, phs1⟩, ?_, ?_⟩
      · simp only [processRecord, htv, hr1, hdc, hr2]
      · intro q hq
        simp only [bodyOf] at hq
        rw [hb] at hq
        cases hq
    | some qb =>
      obtain ⟨phs2, hr2, hfind2, -⟩ := (applyBody_upd (.pyList []) phs1).2 qb _ hb rfl
      refine ⟨⟨layout.name, phs2⟩, ?_, ?_⟩
      · simp only [processRecord, htv, hr1, hdc, hr2]
      · intro q hq
        simp only [bodyOf] at hq
        rw [hfind2] at hq
        cases hq
        rfl

theorem claim_C10_witness :
    (∃ s, processRecord ⟨"Title and Content".toList, [⟨0, []⟩, ⟨1, []⟩]⟩
        (.pyDict [("content".toList, .pyList [.pyStr "A".toList])]) = .ok s ∧
      ∀ q, titleOf s = some q → q.tf = [⟨[], 0⟩]) ∧
    (∃ s, processRecord ⟨"Title and Content".toList, [⟨0, []⟩, ⟨1, []⟩]⟩
        (.pyDict [("title".toList, .pyStr "T".toList)]) = .ok s ∧
      ∀ q, bodyOf s = some q → q.tf = [⟨[], 0⟩]) :=
  ⟨(claim_C10 _ _).1 [⟨"A".toList, 0⟩] rfl rfl,
   (claim_C10 _ _).2 "T".toList rfl rfl⟩

/-! ### C6, C7, C8: error handling and the shell -/

/-- C6: any failure inside the body of `get_slide_structure_from_llm` is
caught there, reported via `st.error`, and yields `None`; any failure
inside the body of `create_presentation` likewise; after an outline error
the shell never builds a deck, and after a deck-build error it shows no
success and offers no download. -/
theorem claim_C6 :
    (∀ (o : LlmOracle) (e : List Char), llmBody o = .error e →
      get_slide_structure_from_llm o = (none, [llmErrorMsg e])) ∧
    (∀ (sl : PyVal) (tf : Except (List Char) Prs) (e : List Char), deckBody sl tf = .error e →
      create_presentation sl tf = (none, [deckErrorMsg e])) ∧
    (∀ (inp : ShellInput) (o : LlmOracle) (e : List Char), llmBody o = .error e →
      (onGenerate inp o).deckBuilt = false ∧ (onGenerate inp o).successShown = false ∧
      (onGenerate inp o).download = none) ∧
    (∀ (inp : ShellInput) (o : LlmOracle) (v : PyVal) (tmpl : Except (List Char) Prs)
      (e : List Char),
      inp.input_text.isEmpty = false → inp.api_key.isEmpty = false →
      inp.uploaded_template = some tmpl → llmBody o = .ok v → pyTruthy v = true →
      deckBody v tmpl = .error e →
      (onGenerate inp o).successShown = false ∧ (onGenerate inp o).download = none ∧
      (onGenerate inp o).deckErrors = [deckErrorMsg e]) := by
  refine ⟨?_, ?_, ?_, ?_⟩
  · intro o e h
    simp [get_slide_structure_from_llm, h]
  · intro sl tf e h
    simp [create_presentation, h]
  · intro inp o e h
    have hget : get_slide_structure_from_llm o = (none, [llmErrorMsg e]) := by
      simp [get_slide_structure_from_llm, h]
    unfold onGenerate
    by_cases ht : inp.input_text.isEmpty
    · simp [ht]
    · by_cases hk : inp.api_key.isEmpty
      · simp [ht, hk]
      · cases htm : inp.uploaded_template with
        | none => simp [ht, hk, htm]
        | some tmpl => simp [ht, hk, htm, hget]
  · intro inp o v tmpl e ht hk htm hllm hv hdeck
    have hget : get_slide_structure_from_llm o = (some v, []) := by
      simp [get_slide_structure_from_llm, hllm]
    have hcp : create_presentation v tmpl = (none, [deckErrorMsg e]) := by
      simp [create_presentation, hdeck]
    unfold onGenerate
    simp [ht, hk, htm, hget, hv, hcp]

theorem claim_C6_witness :
    (get_slide_structure_from_llm ⟨.error "boom".toList, fun _ => .ok .pyNone⟩ =
      (none, [llmErrorMsg "boom".toList]) ∧
     create_presentation (.pyList []) (.error "corrupt".toList) =
      (none, [deckErrorMsg "corrupt".toList])) ∧
    ((onGenerate ⟨"text".toList, [], "key".toList, some (.ok ⟨[], []⟩)⟩
        ⟨.error "boom".toList, fun _ => .ok .pyNone⟩).deckBuilt = false ∧
     (onGenerate ⟨"text".toList, [], "key".toList, some (.ok ⟨[], []⟩)⟩
        ⟨.error "boom".toList, fun _ => .ok .pyNone⟩).successShown = false ∧
     (onGenerate ⟨"text".toList, [], "key".toList, some (.ok ⟨[], []⟩)⟩
        ⟨.error "boom".toList, fun _ => .ok .pyNone⟩).download = none) ∧
    ((onGenerate ⟨"text".toList, [], "key".toList, some (.ok ⟨[], []⟩)⟩
        ⟨.ok "[1]".toList, fun _ => .ok (.pyList [.pyInt 1])⟩).successShown = false ∧
     (onGenerate ⟨"text".toList, [], "key".toList, some (.ok ⟨[], []⟩)⟩
        ⟨.ok "[1]".toList, fun _ => .ok (.pyList [.pyInt 1])⟩).download = none) := by
  refine ⟨⟨claim_C6.1 _ _ rfl, claim_C6.2.1 _ _ _ rfl⟩, ?_, ?_⟩
  · exact claim_C6.2.2.1 ⟨"text".toList, [], "key".toList, some (.ok ⟨[], []⟩)⟩
      ⟨.error "boom".toList, fun _ => .ok .pyNone⟩ "boom".toList rfl
  · obtain ⟨h1, h2, -⟩ := claim_C6.2.2.2 ⟨"text".toList, [], "key".toList, some (.ok ⟨[], []⟩)⟩
      ⟨.ok "[1]".toList, fun _ => .ok (.pyList [.pyInt 1])⟩ (.pyList [.pyInt 1]) (.ok ⟨[], []⟩)
      "IndexError: list index out of range".toList rfl rfl rfl (by rfl) rfl (by rfl)
    exact ⟨h1, h2⟩

/-- C7: when generation is triggered with the text, the credential, or
the template missing, a warning is shown and nothing runs: in particular
no outbound LLM request is made and no deck is built. -/
theorem claim_C7 (inp : ShellInput) (o : LlmOracle)
    (h : inp.input_text.isEmpty = true ∨ inp.api_key.isEmpty = true ∨
      inp.uploaded_template = none) :
    (onGenerate inp o).warning.isSome = true ∧ (onGenerate inp o).llmCalled = false ∧
    (onGenerate inp o).deckBuilt = false ∧ (onGenerate inp o).download = none := by
  unfold onGenerate
  by_cases ht : inp.input_text.isEmpty
  · simp [ht]
  · by_cases hk : inp.api_key.isEmpty
    · simp [ht, hk]
    · have htm : inp.uploaded_template = none := by
        rcases h with h | h | h
        · exact absurd h ht
        · exact absurd h hk
        · exact h
      simp [ht, hk, htm]

theorem claim_C7_witness :
    (onGenerate ⟨"text".toList, [], "key".toList, none⟩
      ⟨.ok "[]".toList, fun _ => .ok (.pyList [])⟩).warning.isSome = true ∧
    (onGenerate ⟨"text".toList, [], "key".toList, none⟩
      ⟨.ok "[]".toList, fun _ => .ok (.pyList [])⟩).llmCalled = false ∧
    (onGenerate ⟨"text".toList, [], "key".toList, none⟩
      ⟨.ok "[]".toList, fun _ => .ok (.pyList [])⟩).deckBuilt = false ∧
    (onGenerate ⟨"text".toList, [], "key".toList, none⟩
      ⟨.ok "[]".toList, fun _ => .ok (.pyList [])⟩).download = none :=
  claim_C7 _ _ (Or.inr (Or.inr rfl))

/-- C8: an outline that parses to the empty JSON array is falsy, so the
shell skips deck building entirely — no `create_presentation` call, no
success message, no download — while the outline step reported no error
and no validation warning was shown. -/
theorem claim_C8 (inp : ShellInput) (o : LlmOracle) (tmpl : Except (List Char) Prs)
    (ht : inp.input_text.isEmpty = false) (hk : inp.api_key.isEmpty = false)
    (htm : inp.uploaded_template = some tmpl) (hllm : llmBody o = .ok (.pyList [])) :
    onGenerate inp o = ⟨none, true, [], false, [], false, none⟩ := by
  have hget : get_slide_structure_from_llm o = (some (.pyList []), []) := by
    simp [get_slide_structure_from_llm, hllm]
  unfold onGenerate
  simp [ht, hk, htm, hget, pyTruthy]

theorem claim_C8_witness :
    onGenerate ⟨"text".toList, [], "key".toList, some (.ok ⟨[], []⟩)⟩
      ⟨.ok "[]".toList, fun _ => .ok (.pyList [])⟩ =
    ⟨none, true, [], false, [], false, none⟩ :=
  claim_C8 _ _ (.ok ⟨[], []⟩) rfl rfl rfl (by rfl)

end App
